import Mathlib

/-!
Shallow embedding of the book-buddy front end's coordination core:
the timed audio player (the `AudioReader` variant carrying the `disabled`
prop), the chunk player (`clientTools.play_chunk` of the latest
`Conversation` component), the context fetch helper, and the conversation
session controller.  Times are rationals; the external boundaries
(microphone device, HTTP backend, voice SDK) are explicit environment
records so every operation is a pure state transformer.
-/

namespace BookBuddy

/-! ## Timed Audio Player (`AudioReader` with the `disabled` prop) -/

/-- Combined state of the `AudioReader` component and its host per the
PlaybackState ownership contract: `isPlaying` and `currentTime` are the
host-owned values fed back as props, and invoking the component's
`onPlayStateChange b` / `onTimeUpdate t` callbacks is modelled as the host
storing the argument into that state.  `elementPaused` is the underlying
media element's actual state. -/
structure ReaderState where
  isPlaying : Bool
  currentTime : ℚ
  duration : ℚ
  disabled : Bool
  elementPaused : Bool
deriving DecidableEq

/-- The `AudioReader` playback effect (the `useEffect` over
`[isPlaying, disabled]`): when `disabled`, the element is paused and
`onPlayStateChange(false)` is emitted (host stores `isPlaying := false`);
otherwise the element follows `isPlaying`. -/
def applyPlaybackEffect (s : ReaderState) : ReaderState :=
  if s.disabled then
    { s with elementPaused := true, isPlaying := false }
  else if s.isPlaying then
    { s with elementPaused := false }
  else
    { s with elementPaused := true }

/-- Changing the `disabled` prop re-runs the playback effect. -/
def setDisabled (b : Bool) (s : ReaderState) : ReaderState :=
  applyPlaybackEffect { s with disabled := b }

/-- The component's `handleTimeUpdate`: forwards the element clock through
`onTimeUpdate` only when not disabled; the second component is the emitted
time-update notification, `none` when suppressed. -/
def handleTimeUpdate (s : ReaderState) (elementTime : ℚ) : ReaderState × Option ℚ :=
  if s.disabled then (s, none)
  else ({ s with currentTime := elementTime }, some elementTime)

/-- `skipForward`: `onSetTime(Math.min(currentTime + 10, duration))`,
guarded by `!disabled` (the button is also disabled while `disabled`). -/
def skipForward (s : ReaderState) : ReaderState :=
  if s.disabled then s
  else { s with currentTime := min (s.currentTime + 10) s.duration }

/-- `skipBackward`: `onSetTime(Math.max(currentTime - 10, 0))`,
guarded by `!disabled`. -/
def skipBackward (s : ReaderState) : ReaderState :=
  if s.disabled then s
  else { s with currentTime := max (s.currentTime - 10) 0 }

/-! ## Chunk Player (`clientTools.play_chunk`) -/

/-- Response of `POST /api/timestamps`. -/
structure TimestampResponse where
  start_time : ℚ
  end_time : ℚ
deriving DecidableEq

/-- The `played_chunk` payload of a successful resolution; the source
field `end` is spelled `endTime` here (reserved word). -/
structure PlayedChunk where
  text : String
  start : ℚ
  endTime : ℚ
deriving DecidableEq

/-- The value `play_chunk` resolves with. -/
structure PlayChunkSuccess where
  status : String
  played_chunk : PlayedChunk
deriving DecidableEq

/-- Causes of a `play_chunk` rejection: the missing-stream guard throw,
the rethrown timestamp-lookup failure, and an error signalled by the
independent audio instance (`play()` rejection or `onerror`). -/
inductive ChunkError where
  | noStream
  | timestampFetchFailed
  | playbackError
deriving DecidableEq

/-- Settlement of the `play_chunk` promise; `pending` when the polling
loop never observes `currentTime >= end_time` within the given trace. -/
inductive ChunkOutcome where
  | resolved (r : PlayChunkSuccess)
  | rejected (e : ChunkError)
  | pending
deriving DecidableEq

/-- The primary Timed Audio Player's externally visible state as the
chunk tool could see it. -/
structure PrimaryPlayerState where
  currentTime : ℚ
  isPlaying : Bool
  disabled : Bool
deriving DecidableEq

/-- An independent `Audio` element created by the chunk tool. -/
structure AudioInstance where
  url : String
  currentTime : ℚ
  paused : Bool
deriving DecidableEq

/-- World visible to a chunk-play invocation: the primary player plus the
slot for the independent ElevenLabs audio instance. -/
structure ChunkWorld where
  primary : PrimaryPlayerState
  chunkAudioInst : Option AudioInstance
deriving DecidableEq

/-- Environment of one `play_chunk` invocation: the stream URL prop, the
outcome of the external timestamp lookup (`none` = lookup failed), whether
the independent instance signals a playback/decoding error, and the
`currentTime` values observed at successive polled animation frames. -/
structure ChunkEnv where
  audioUrl : Option String
  timestamps : Option TimestampResponse
  playFails : Bool
  clock : List ℚ
deriving DecidableEq

/-- `new Audio(audioUrl)` followed by `elevenLabsAudio.currentTime = start_time`:
a fresh paused instance seeked to the chunk start. -/
def mkElevenLabsAudioInst (u : String) (startTime : ℚ) : AudioInstance :=
  { url := u, currentTime := startTime, paused := true }

/-- The `checkTime` polling loop: scan the per-frame clock trace for the
first frame whose observed `currentTime` is `>= end_time`; returns the
frame index and the observed time at resolution. -/
def checkTime (endTime : ℚ) : List ℚ → Option (ℕ × ℚ)
  | [] => none
  | t :: ts =>
      if endTime ≤ t then some (0, t)
      else (checkTime endTime ts).map (fun p => (p.1 + 1, p.2))

/-- Result of one chunk-play invocation, together with how many times the
`onBeforeChunkPlay` / `onAfterChunkPlay` props were invoked (the source
body never calls them). -/
structure ChunkRun where
  world : ChunkWorld
  outcome : ChunkOutcome
  beforeChunkPlayCalls : ℕ
  afterChunkPlayCalls : ℕ
deriving DecidableEq

/-- The `play_chunk` client tool: guard on the stream URL, timestamp
lookup, creation of the independent instance seeked to `start_time`,
playback with the per-frame polling loop, pause-and-resolve once the
observed time reaches `end_time`.  The fixed settling delay is pure time
and is not modelled. -/
def play_chunk (w : ChunkWorld) (env : ChunkEnv) (contextText : String) : ChunkRun :=
  match env.audioUrl with
  | none =>
      { world := w, outcome := .rejected .noStream,
        beforeChunkPlayCalls := 0, afterChunkPlayCalls := 0 }
  | some u =>
      match env.timestamps with
      | none =>
          { world := w, outcome := .rejected .timestampFetchFailed,
            beforeChunkPlayCalls := 0, afterChunkPlayCalls := 0 }
      | some ts =>
          let inst := mkElevenLabsAudioInst u ts.start_time
          if env.playFails then
            { world := { w with chunkAudioInst := some inst },
              outcome := .rejected .playbackError,
              beforeChunkPlayCalls := 0, afterChunkPlayCalls := 0 }
          else
            match checkTime ts.end_time env.clock with
            | some p =>
                let pausedInst : AudioInstance :=
                  { url := u, currentTime := p.2, paused := true }
                let success : PlayChunkSuccess :=
                  { status := "success",
                    played_chunk :=
                      { text := contextText, start := ts.start_time,
                        endTime := ts.end_time } }
                { world := { w with chunkAudioInst := some pausedInst },
                  outcome := .resolved success,
                  beforeChunkPlayCalls := 0, afterChunkPlayCalls := 0 }
            | none =>
                let runningInst : AudioInstance := { inst with paused := false }
                { world := { w with chunkAudioInst := some runningInst },
                  outcome := .pending,
                  beforeChunkPlayCalls := 0, afterChunkPlayCalls := 0 }

/-! ## Context fetch (`fetchContext`) -/

/-- Response of `POST /api/context`. -/
structure ContextData where
  context : String
  start_position : ℚ
  end_position : ℚ
deriving DecidableEq

/-- Observable result of one `fetchContext` call: the returned value, a
flag recording whether the network request was issued, and the error
message stored via `setError` on failure. -/
structure FetchContextResult where
  result : Option ContextData
  networkCalled : Bool
  errorMsg : Option String
deriving DecidableEq

/-- `fetchContext`: skipped entirely when `currentTime < 1`; otherwise
issues the request, whose outcome is `net` (`none` = non-OK or thrown),
returning `null` with an error message on failure. -/
def fetchContext (currentTime : ℚ) (net : Option ContextData) : FetchContextResult :=
  if currentTime < 1 then
    { result := none, networkCalled := false, errorMsg := none }
  else
    match net with
    | some d => { result := some d, networkCalled := true, errorMsg := none }
    | none =>
        { result := none, networkCalled := true,
          errorMsg := some "Failed to fetch context for current timestamp" }

/-! ## Conversation Session Controller (`Conversation`, latest variant) -/

/-- JavaScript `s || d` on strings: the empty string is falsy. -/
def jsOr (s d : String) : String := if s = "" then d else s

/-- JavaScript `o?.field || d` shape: `undefined`/`null` and the empty
string both fall back to the default. -/
def jsOrOpt (o : Option String) (d : String) : String :=
  match o with
  | none => d
  | some s => jsOr s d

/-- The `dynamicVariables` record passed to `conversation.startSession`. -/
structure DynamicVariables where
  context : String
  history : String
  first_message : String
deriving DecidableEq

/-- One recorded invocation of `conversation.startSession`. -/
structure SessionCall where
  agentId : String
  sessionId : Option String
  dynamicVariables : DynamicVariables
deriving DecidableEq

/-- SDK-reported connection status as read by the connect button. -/
inductive ConvStatus where
  | disconnected
  | connected
deriving DecidableEq

/-- State of the `Conversation` component plus an event log of its
interactions with the outside world.  Acquired microphone streams are
numbered `0, 1, …` in acquisition order; `mediaStream` is the id held by
`mediaStreamRef`, and `stoppedStreams` lists the ids whose tracks have
been stopped.  `sessionStartCalls` records `startSession` invocations,
most recent first. -/
structure ConvState where
  isStarting : Bool
  errorMsg : Option String
  currentContext : Option ContextData
  history : Option String
  firstMessage : Option String
  mediaStream : Option ℕ
  sessionIdRef : Option String
  playerDisabled : Bool
  status : ConvStatus
  micRequests : ℕ
  stoppedStreams : List ℕ
  sessionStartCalls : List SessionCall
  startInvocations : ℕ
  startCallbackRuns : ℕ
  stopCallbackRuns : ℕ
deriving DecidableEq

/-- Fresh component state before any interaction. -/
def initialConvState : ConvState :=
  { isStarting := false, errorMsg := none, currentContext := none,
    history := none, firstMessage := none, mediaStream := none,
    sessionIdRef := none, playerDisabled := false, status := .disconnected,
    micRequests := 0, stoppedStreams := [], sessionStartCalls := [],
    startInvocations := 0, startCallbackRuns := 0, stopCallbackRuns := 0 }

/-- `cleanupMediaStream`: stop every track of the held stream and drop the
reference; a no-op when the reference is already `null`. -/
def cleanupMediaStream (s : ConvState) : ConvState :=
  match s.mediaStream with
  | some sid =>
      { s with stoppedStreams := sid :: s.stoppedStreams, mediaStream := none }
  | none => s

/-- Environment of one `startConversation` run: whether `getUserMedia`
resolves, the `/api/context` outcome, the (never-throwing) history fetch
result, and the `startSession` outcome (`none` = it threw). -/
structure StartEnv where
  micOk : Bool
  contextNet : Option ContextData
  historyResult : String
  sessionResult : Option String
deriving DecidableEq

/-- Synchronous prefix of `startConversation`, up to and including the
issuing of the `getUserMedia` request (the first suspension point):
`setIsStarting(true)`, `setError(null)`, the `onStartConversation` and
`onPlayerStateChange(true)` callbacks. -/
def startPrefix (s : ConvState) : ConvState :=
  { s with isStarting := true, errorMsg := none,
           startCallbackRuns := s.startCallbackRuns + 1,
           playerDisabled := true,
           startInvocations := s.startInvocations + 1,
           micRequests := s.micRequests + 1 }

/-- The `catch` block of `startConversation`: surface the error, clear the
starting flag and context, release the microphone, re-enable the player. -/
def startCatch (s : ConvState) : ConvState :=
  let s1 :=
    { s with
      errorMsg := some "Failed to start conversation. Please check your microphone access.",
      isStarting := false, currentContext := none }
  let s2 := cleanupMediaStream s1
  { s2 with playerDisabled := false }

/-- Remainder of `startConversation` after the first suspension point:
store the stream, fetch context, optionally fetch history and pick the
greeting, call `startSession` with the seeded dynamic variables, record
the new session id; any throw lands in the `catch` block. -/
def startRest (existingSessionId : Option String) (currentTime : ℚ)
    (env : StartEnv) (s : ConvState) : ConvState :=
  if env.micOk then
    let s1 := { s with mediaStream := some (s.micRequests - 1) }
    let fc := fetchContext currentTime env.contextNet
    let s2 :=
      { s1 with currentContext := fc.result,
                errorMsg := match fc.errorMsg with
                  | some m => some m
                  | none => s1.errorMsg }
    let conversationHistory :=
      match existingSessionId with
      | some _ => env.historyResult
      | none => ""
    let nextFirstMessage : Option String :=
      match existingSessionId with
      | some _ => some "lets continue?"
      | none => none
    let s3 := { s2 with history := some conversationHistory,
                        firstMessage := nextFirstMessage }
    let call : SessionCall :=
      { agentId := "ELEVEN_LABS_AGENT_ID",
        sessionId := existingSessionId,
        dynamicVariables :=
          { context := jsOrOpt (fc.result.map (fun c => c.context))
              "No context available yet",
            history := jsOr conversationHistory "No history available yet",
            first_message := jsOrOpt nextFirstMessage
              "Hi, I'm Book Buddy. How can I help you today?" } }
    let s4 := { s3 with sessionStartCalls := call :: s3.sessionStartCalls }
    match env.sessionResult with
    | some newId => { s4 with sessionIdRef := some newId }
    | none => startCatch s4
  else
    startCatch s

/-- The whole `startConversation(existingSessionId?)` call. -/
def startConversation (existingSessionId : Option String) (currentTime : ℚ)
    (env : StartEnv) (s : ConvState) : ConvState :=
  startRest existingSessionId currentTime env (startPrefix s)

/-- Reasons carried by `DisconnectionDetails`. -/
inductive DisconnectReason where
  | user
  | agent
  | error
deriving DecidableEq

/-- The `onDisconnect` callback: on reason `error`, one reconnect attempt
via `startConversation(currentSessionIdRef.current)` when the ref holds a
string; on any other reason, only the `onStopConversation` prop is
invoked. -/
def onDisconnect (reason : DisconnectReason) (currentTime : ℚ)
    (reconnectEnv : StartEnv) (s : ConvState) : ConvState :=
  match reason with
  | .error =>
      match s.sessionIdRef with
      | some sid => startConversation (some sid) currentTime reconnectEnv s
      | none => s
  | _ => { s with stopCallbackRuns := s.stopCallbackRuns + 1 }

/-- The `onError` callback: surface the message, clear the starting flag,
release the microphone (and the chunk audio element). -/
def onErrorCb (msg : String) (s : ConvState) : ConvState :=
  cleanupMediaStream { s with errorMsg := some msg, isStarting := false }

/-- The `onConnect` callback. -/
def onConnect (s : ConvState) : ConvState :=
  { s with isStarting := false, errorMsg := none, status := .connected }

/-- `stopConversation`: end the remote session, drop the context, release
the microphone, re-enable the player, notify the host. -/
def stopConversation (endSessionOk : Bool) (s : ConvState) : ConvState :=
  if endSessionOk then
    let s1 := cleanupMediaStream { s with currentContext := none }
    { s1 with playerDisabled := false,
              stopCallbackRuns := s1.stopCallbackRuns + 1 }
  else
    { s with errorMsg := some "Failed to stop conversation" }

/-- One click on the connect control while not connected: the button is
disabled while `isStarting` holds (the in-flight guard), so the click is
dropped then; otherwise the synchronous prefix of `startConversation`
runs.  The `isStarting := true` update is rendered before any later click
event is processed (single-threaded event loop). -/
def connectClickBegin (s : ConvState) : ConvState :=
  if s.isStarting then s
  else if s.status = .connected then s
  else startPrefix s

/-! ## Theorems -/

/-- C6: setting `disabled` to `true` immediately pauses the player
(`isPlaying = false` and the element paused, regardless of prior state),
any state with `disabled` set emits no time-update notification, and
setting `disabled` back to `false` does not auto-resume playback. -/
theorem setDisabled_forces_pause (s : ReaderState) (t u : ℚ) :
    (setDisabled true s).isPlaying = false
    ∧ (setDisabled true s).elementPaused = true
    ∧ (handleTimeUpdate (setDisabled true s) t).2 = none
    ∧ (handleTimeUpdate { s with disabled := true } u).2 = none
    ∧ (setDisabled false (setDisabled true s)).elementPaused = true
    ∧ (setDisabled false (setDisabled true s)).isPlaying = false := by
  simp [setDisabled, applyPlaybackEffect, handleTimeUpdate]

/-- C8: from any position `t` with `0 ≤ t ≤ duration`, skip-forward moves
to `min (t + 10) duration` and skip-backward to `max (t - 10) 0` (when the
player is enabled; while disabled the controls are inert), and neither
operation ever leaves `[0, duration]`. -/
theorem skip_step_clamped (s : ReaderState)
    (h0 : 0 ≤ s.currentTime) (h1 : s.currentTime ≤ s.duration) :
    (s.disabled = false →
      (skipForward s).currentTime = min (s.currentTime + 10) s.duration
      ∧ (skipBackward s).currentTime = max (s.currentTime - 10) 0)
    ∧ (0 ≤ (skipForward s).currentTime ∧ (skipForward s).currentTime ≤ s.duration)
    ∧ (0 ≤ (skipBackward s).currentTime ∧ (skipBackward s).currentTime ≤ s.duration) := by
  have hd0 : (0 : ℚ) ≤ s.duration := le_trans h0 h1
  refine ⟨fun hdis => ⟨by simp [skipForward, hdis], by simp [skipBackward, hdis]⟩, ?_, ?_⟩
  · by_cases hd : s.disabled = true
    · rw [skipForward, if_pos hd]
      exact ⟨h0, h1⟩
    · rw [skipForward, if_neg hd]
      exact ⟨le_min (by linarith) hd0, min_le_right _ _⟩
  · by_cases hd : s.disabled = true
    · rw [skipBackward, if_pos hd]
      exact ⟨h0, h1⟩
    · rw [skipBackward, if_neg hd]
      exact ⟨le_max_right _ _, max_le (by linarith) hd0⟩

/-- Concrete instance used to witness the skip-step claim. -/
def readerW : ReaderState :=
  { isPlaying := false, currentTime := 3, duration := 20,
    disabled := false, elementPaused := true }

/-- Witness for C8 at a concrete enabled player state. -/
theorem skip_step_clamped_witness :
    (0 ≤ readerW.currentTime ∧ readerW.currentTime ≤ readerW.duration)
    ∧ ((readerW.disabled = false →
        (skipForward readerW).currentTime = min (readerW.currentTime + 10) readerW.duration
        ∧ (skipBackward readerW).currentTime = max (readerW.currentTime - 10) 0)
      ∧ (0 ≤ (skipForward readerW).currentTime
          ∧ (skipForward readerW).currentTime ≤ readerW.duration)
      ∧ (0 ≤ (skipBackward readerW).currentTime
          ∧ (skipBackward readerW).currentTime ≤ readerW.duration)) :=
  ⟨⟨by norm_num [readerW], by norm_num [readerW]⟩,
    skip_step_clamped readerW (by norm_num [readerW]) (by norm_num [readerW])⟩

/-- C9: whenever the current playback time is strictly below one second,
`fetchContext` returns `null`, issues no network request and records no
error, whatever the backend would have answered. -/
theorem fetchContext_skip_below_one (t : ℚ) (net : Option ContextData)
    (h : t < 1) :
    fetchContext t net =
      { result := none, networkCalled := false, errorMsg := none } := by
  simp [fetchContext, h]

/-- Witness for C9 at time zero. -/
theorem fetchContext_skip_below_one_witness :
    ((0 : ℚ) < 1)
    ∧ fetchContext 0 (some { context := "excerpt", start_position := 0, end_position := 4 }) =
        { result := none, networkCalled := false, errorMsg := none } :=
  ⟨by norm_num,
    fetchContext_skip_below_one 0
      (some { context := "excerpt", start_position := 0, end_position := 4 })
      (by norm_num)⟩

/-- Helper: when the polling loop resolves at frame `i` with observed time
`t`, the end time has been reached at that frame and at no earlier one. -/
theorem checkTime_spec (e : ℚ) (l : List ℚ) (i : ℕ) (t : ℚ)
    (h : checkTime e l = some (i, t)) :
    e ≤ t ∧ ∀ j, j < i → ∀ x, l.get? j = some x → x < e := by
  induction l generalizing i with
  | nil => simp [checkTime] at h
  | cons a as ih =>
    by_cases ha : e ≤ a
    · rw [checkTime, if_pos ha] at h
      obtain ⟨hi, ht⟩ := by simpa using h
      refine ⟨by rw [← ht]; exact ha, ?_⟩
      intro j hj
      omega
    · rw [checkTime, if_neg ha] at h
      obtain ⟨⟨i', t'⟩, hp, hft⟩ := Option.map_eq_some'.mp h
      have hft' : (i' + 1, t') = (i, t) := hft
      obtain ⟨hi, ht⟩ := (Prod.mk.injEq _ _ _ _).mp hft'
      subst hi
      subst ht
      obtain ⟨h1, h2⟩ := ih i' hp
      refine ⟨h1, ?_⟩
      intro j hj x hx
      cases j with
      | zero =>
          obtain rfl : a = x := by simpa using hx
          exact lt_of_not_le ha
      | succ k =>
          refine h2 k ?_ x (by simpa using hx)
          omega

/-- C3: with an active streaming source and a timestamp answer
`{start_time, end_time}`, when the independent instance plays cleanly and
the polling loop observes `end_time` being reached, `play_chunk` resolves
with `status = success` and a played chunk carrying the requested text and
exactly the looked-up bounds; the independent instance was created seeked
to `start_time`, ends paused at the observed resolution time, resolution
happens only once the observed time is `≥ end_time` (no earlier polled
frame had reached it), and the primary player is untouched. -/
theorem play_chunk_resolves_after_end_time (w : ChunkWorld) (env : ChunkEnv)
    (ctx u : String) (ts : TimestampResponse) (i : ℕ) (tObs : ℚ)
    (hu : env.audioUrl = some u) (hts : env.timestamps = some ts)
    (hp : env.playFails = false)
    (hc : checkTime ts.end_time env.clock = some (i, tObs)) :
    (play_chunk w env ctx).outcome =
        .resolved
          { status := "success",
            played_chunk :=
              { text := ctx, start := ts.start_time, endTime := ts.end_time } }
    ∧ (play_chunk w env ctx).world.chunkAudioInst =
        some { url := u, currentTime := tObs, paused := true }
    ∧ (play_chunk w env ctx).world.primary = w.primary
    ∧ ts.end_time ≤ tObs
    ∧ (∀ j, j < i → ∀ x, env.clock.get? j = some x → x < ts.end_time)
    ∧ (mkElevenLabsAudioInst u ts.start_time).currentTime = ts.start_time := by
  obtain ⟨h1, h2⟩ := checkTime_spec ts.end_time env.clock i tObs hc
  refine ⟨?_, ?_, ?_, h1, h2, rfl⟩ <;>
    simp [play_chunk, hu, hts, hp, hc]

/-- Concrete chunk environment realising the spec's synthetic test
(`start_time = 5`, `end_time = 8`, resolution once time crosses 8). -/
def chunkEnvW3 : ChunkEnv :=
  { audioUrl := some "stream", timestamps := some { start_time := 5, end_time := 8 },
    playFails := false, clock := [5, 6, 7, 9] }

/-- Concrete world for the C3 witness. -/
def chunkWorldW3 : ChunkWorld :=
  { primary := { currentTime := 12, isPlaying := true, disabled := false },
    chunkAudioInst := none }

/-- Witness for C3 at the spec's synthetic timestamps. -/
theorem play_chunk_resolves_after_end_time_witness :
    (chunkEnvW3.audioUrl = some "stream"
      ∧ chunkEnvW3.timestamps = some { start_time := 5, end_time := 8 }
      ∧ chunkEnvW3.playFails = false
      ∧ checkTime ({ start_time := 5, end_time := 8 } : TimestampResponse).end_time
          chunkEnvW3.clock = some (3, 9))
    ∧ ((play_chunk chunkWorldW3 chunkEnvW3 "chunk text").outcome =
        .resolved
          { status := "success",
            played_chunk :=
              { text := "chunk text",
                start := ({ start_time := 5, end_time := 8 } : TimestampResponse).start_time,
                endTime := ({ start_time := 5, end_time := 8 } : TimestampResponse).end_time } }
      ∧ (play_chunk chunkWorldW3 chunkEnvW3 "chunk text").world.chunkAudioInst =
          some { url := "stream", currentTime := 9, paused := true }
      ∧ (play_chunk chunkWorldW3 chunkEnvW3 "chunk text").world.primary =
          chunkWorldW3.primary
      ∧ ({ start_time := 5, end_time := 8 } : TimestampResponse).end_time ≤ 9
      ∧ (∀ j, j < 3 → ∀ x, chunkEnvW3.clock.get? j = some x →
          x < ({ start_time := 5, end_time := 8 } : TimestampResponse).end_time)
      ∧ (mkElevenLabsAudioInst "stream"
          ({ start_time := 5, end_time := 8 } : TimestampResponse).start_time).currentTime =
          ({ start_time := 5, end_time := 8 } : TimestampResponse).start_time) :=
  ⟨⟨rfl, rfl, rfl, by decide⟩,
    play_chunk_resolves_after_end_time chunkWorldW3 chunkEnvW3 "chunk text" "stream"
      { start_time := 5, end_time := 8 } 3 9 rfl rfl rfl (by decide)⟩

/-- Concrete world for the C2 counterexample: primary disabled at
position 42. -/
def chunkWorldW2 : ChunkWorld :=
  { primary := { currentTime := 42, isPlaying := false, disabled := true },
    chunkAudioInst := none }

/-- Concrete environment for the C2 counterexample: a chunk invocation
that runs to successful resolution. -/
def chunkEnvW2 : ChunkEnv :=
  { audioUrl := some "stream", timestamps := some { start_time := 5, end_time := 8 },
    playFails := false, clock := [5, 6, 7, 9] }

/-- C2 counterexample: on a concrete chunk-play invocation that resolves
successfully, the tool never invokes the `onBeforeChunkPlay` snapshot
callback nor the `onAfterChunkPlay` restore callback — the
snapshot-then-restore mechanism the claim describes does not happen (the
primary position is nevertheless unchanged, by non-interference). -/
theorem play_chunk_no_snapshot_callback :
    (play_chunk chunkWorldW2 chunkEnvW2 "some text").beforeChunkPlayCalls = 0
    ∧ (play_chunk chunkWorldW2 chunkEnvW2 "some text").afterChunkPlayCalls = 0
    ∧ (play_chunk chunkWorldW2 chunkEnvW2 "some text").outcome =
        .resolved
          { status := "success",
            played_chunk := { text := "some text", start := 5, endTime := 8 } }
    ∧ (play_chunk chunkWorldW2 chunkEnvW2 "some text").world.primary.currentTime = 42 := by
  decide

/-- C2 amended: across every chunk-play invocation — resolving, rejecting
or left pending, and whatever the primary player's state, disabled
included — the primary player is bit-for-bit unchanged (so its position
is exactly `p` afterwards), because the tool only ever drives its own
independent audio instance; no snapshot or restore callback is invoked. -/
theorem play_chunk_preserves_primary (w : ChunkWorld) (env : ChunkEnv)
    (ctx : String) :
    (play_chunk w env ctx).world.primary = w.primary
    ∧ (play_chunk w env ctx).world.primary.currentTime = w.primary.currentTime
    ∧ (play_chunk w env ctx).beforeChunkPlayCalls = 0
    ∧ (play_chunk w env ctx).afterChunkPlayCalls = 0 := by
  obtain ⟨au, tso, pf, ck⟩ := env
  cases au <;> cases tso <;> cases pf <;>
    simp [play_chunk]
  all_goals
    cases checkTime _ ck <;> simp

/-- Concrete world for the C4 counterexample. -/
def chunkWorldW4 : ChunkWorld :=
  { primary := { currentTime := 7, isPlaying := true, disabled := false },
    chunkAudioInst := none }

/-- Concrete environment for the C4 counterexample: stream present, no
playback error, but the timestamp lookup fails. -/
def chunkEnvW4 : ChunkEnv :=
  { audioUrl := some "stream", timestamps := none, playFails := false, clock := [] }

/-- C4 counterexample: with an active streaming source and no
playback/decoding error on the independent instance, `play_chunk` still
rejects when the timestamp lookup fails — a rejection outside the claim's
two enumerated causes, refuting the claimed "rejects exactly in [those]
error cases". -/
theorem play_chunk_rejects_on_timestamp_failure :
    chunkEnvW4.audioUrl ≠ none
    ∧ chunkEnvW4.playFails = false
    ∧ (play_chunk chunkWorldW4 chunkEnvW4 "text").outcome =
        .rejected .timestampFetchFailed
    ∧ ChunkError.timestampFetchFailed ≠ ChunkError.noStream
    ∧ ChunkError.timestampFetchFailed ≠ ChunkError.playbackError := by
  decide

/-- C4 amended: `play_chunk` rejects exactly when the streaming source is
absent, the timestamp lookup fails, or the independent instance reports a
playback/decoding error; and in every invocation — failing or not — the
primary player's state is unaffected. -/
theorem play_chunk_reject_iff (w : ChunkWorld) (env : ChunkEnv) (ctx : String) :
    ((∃ r, (play_chunk w env ctx).outcome = .rejected r) ↔
      (env.audioUrl = none ∨ env.timestamps = none ∨ env.playFails = true))
    ∧ (play_chunk w env ctx).world.primary = w.primary := by
  obtain ⟨au, tso, pf, ck⟩ := env
  cases au <;> cases tso <;> cases pf <;>
    simp [play_chunk]
  all_goals
    cases checkTime _ ck <;> simp

/-- C5: two clicks on the connect control, the second issued while the
first start is still in flight (`isStarting` already set, its render
applied), produce exactly one `getUserMedia` acquisition and exactly one
`startSession` invocation: the in-flight guard drops the second click. -/
theorem concurrent_start_single_acquisition (s : ConvState) (sid : Option String)
    (t : ℚ) (env : StartEnv)
    (hstart : s.isStarting = false) (hstat : s.status ≠ .connected)
    (hmic : env.micOk = true) :
    (startRest sid t env (connectClickBegin (connectClickBegin s))).micRequests
        = s.micRequests + 1
    ∧ (startRest sid t env (connectClickBegin (connectClickBegin s))).sessionStartCalls.length
        = s.sessionStartCalls.length + 1 := by
  have hb : connectClickBegin s = startPrefix s := by
    simp [connectClickBegin, hstart, hstat]
  have hb2 : connectClickBegin (startPrefix s) = startPrefix s := by
    simp [connectClickBegin, startPrefix]
  rw [hb, hb2]
  cases hres : env.sessionResult <;>
    simp [startRest, hmic, hres, startPrefix, startCatch, cleanupMediaStream]

/-- Environment for the C5 witness: microphone granted, context skipped,
session opens. -/
def startEnvW5 : StartEnv :=
  { micOk := true, contextNet := none, historyResult := "",
    sessionResult := some "session-1" }

/-- Witness for C5 from the fresh component state. -/
theorem concurrent_start_single_acquisition_witness :
    (initialConvState.isStarting = false
      ∧ initialConvState.status ≠ ConvStatus.connected
      ∧ startEnvW5.micOk = true)
    ∧ ((startRest none 0 startEnvW5
          (connectClickBegin (connectClickBegin initialConvState))).micRequests
        = initialConvState.micRequests + 1
      ∧ (startRest none 0 startEnvW5
          (connectClickBegin (connectClickBegin initialConvState))).sessionStartCalls.length
        = initialConvState.sessionStartCalls.length + 1) :=
  ⟨⟨rfl, by decide, rfl⟩,
    concurrent_start_single_acquisition initialConvState none 0 startEnvW5
      rfl (by decide) rfl⟩

/-- C10: whenever `fetchContext` comes back `null` (time below one second
or a failed request), `startConversation` still invokes `startSession`,
seeding `context` with the fixed default, and — with no prior session —
the history and first-message defaults as well. -/
theorem start_opens_session_with_defaults (s : ConvState) (t : ℚ) (env : StartEnv)
    (hctx : (fetchContext t env.contextNet).result = none)
    (hmic : env.micOk = true) :
    (startConversation none t env s).sessionStartCalls.length
        = s.sessionStartCalls.length + 1
    ∧ (startConversation none t env s).sessionStartCalls.head? =
        some
          { agentId := "ELEVEN_LABS_AGENT_ID", sessionId := none,
            dynamicVariables :=
              { context := "No context available yet",
                history := "No history available yet",
                first_message := "Hi, I'm Book Buddy. How can I help you today?" } } := by
  cases hres : env.sessionResult <;>
    simp [startConversation, startRest, hmic, hres, hctx, startPrefix,
      startCatch, cleanupMediaStream, jsOr, jsOrOpt]

/-- Environment for the C10 witness: context fetch skipped (time 0),
microphone granted. -/
def startEnvW10 : StartEnv :=
  { micOk := true, contextNet := none, historyResult := "",
    sessionResult := some "session-2" }

/-- Witness for C10 at time zero from the fresh component state. -/
theorem start_opens_session_with_defaults_witness :
    ((fetchContext 0 startEnvW10.contextNet).result = none
      ∧ startEnvW10.micOk = true)
    ∧ ((startConversation none 0 startEnvW10 initialConvState).sessionStartCalls.length
        = initialConvState.sessionStartCalls.length + 1
      ∧ (startConversation none 0 startEnvW10 initialConvState).sessionStartCalls.head? =
          some
            { agentId := "ELEVEN_LABS_AGENT_ID", sessionId := none,
              dynamicVariables :=
                { context := "No context available yet",
                  history := "No history available yet",
                  first_message := "Hi, I'm Book Buddy. How can I help you today?" } }) :=
  ⟨⟨by decide, rfl⟩,
    start_opens_session_with_defaults initialConvState 0 startEnvW10 (by decide) rfl⟩

/-- A connected session holding microphone stream 0, as reached after a
successful start. -/
def connectedConvStateW : ConvState :=
  { isStarting := false, errorMsg := none,
    currentContext := some { context := "ctx", start_position := 0, end_position := 1 },
    history := some "", firstMessage := none,
    mediaStream := some 0, sessionIdRef := some "sess-a",
    playerDisabled := true, status := .connected,
    micRequests := 1, stoppedStreams := [],
    sessionStartCalls := [], startInvocations := 1,
    startCallbackRuns := 1, stopCallbackRuns := 0 }

/-- Environment that would be used were a reconnect attempted. -/
def reconnectEnvW : StartEnv :=
  { micOk := true, contextNet := none, historyResult := "",
    sessionResult := some "sess-b" }

/-- C1: evaluating the disconnect handler at reason `agent` on a connected
session holding the microphone: no reconnect is attempted (that half of
the claim holds), but the handler only invokes the stop callback — the
microphone stream stays held, no track is stopped, and the player stays
disabled, so the code does not release all resources nor re-enable
playback on an agent-initiated disconnect as the claim requires. -/
theorem onDisconnect_agent_keeps_resources :
    (onDisconnect .agent 0 reconnectEnvW connectedConvStateW).startInvocations
        = connectedConvStateW.startInvocations
    ∧ (onDisconnect .agent 0 reconnectEnvW connectedConvStateW).mediaStream = some 0
    ∧ (onDisconnect .agent 0 reconnectEnvW connectedConvStateW).stoppedStreams = []
    ∧ (onDisconnect .agent 0 reconnectEnvW connectedConvStateW).playerDisabled = true
    ∧ (onDisconnect .agent 0 reconnectEnvW connectedConvStateW).stopCallbackRuns
        = connectedConvStateW.stopCallbackRuns + 1 := by
  decide

/-- Start environment of the first session of the C7 trace. -/
def convEnv1 : StartEnv :=
  { micOk := true, contextNet := none, historyResult := "",
    sessionResult := some "sess-1" }

/-- Start environment of the reconnect in the C7 trace. -/
def convEnv2 : StartEnv :=
  { micOk := true, contextNet := none, historyResult := "prior talk",
    sessionResult := some "sess-2" }

/-- State after the first successful start and connect of the C7 trace. -/
def afterFirstStart : ConvState :=
  onConnect (startConversation none 0 convEnv1 initialConvState)

/-- State after the error-reason disconnect and its reconnect attempt. -/
def afterReconnect : ConvState :=
  onDisconnect .error 0 convEnv2 afterFirstStart

/-- C7: concrete trace — the first start acquires microphone stream 0;
an error-reason disconnect triggers the reconnect, which acquires stream 1
and overwrites `mediaStreamRef` without ever stopping stream 0's tracks:
the handle leaks across the session boundary, contradicting the claim
that every termination path releases it. -/
theorem reconnect_leaks_media_stream :
    afterFirstStart.mediaStream = some 0
    ∧ afterReconnect.micRequests = 2
    ∧ afterReconnect.mediaStream = some 1
    ∧ afterReconnect.stoppedStreams = [] := by
  decide

end BookBuddy
